import Mathlib

/-!
# Verification of the RAG-Agent orchestration core

A shallow embedding of the TypeScript RAG chatbot server (Express handlers in
`server.ts`, LangGraph pipeline in `rag-chain.ts`).  External collaborators
(the LLM completion service, the embedding service, the document fetcher) are
modelled as oracles passed in as function arguments or explicit outcome
values; everything the repository itself computes is translated directly from
the source.
-/

namespace RagAgent

/-! ## JavaScript string primitives used by the source -/

/-- JS `a.includes(b)`: substring test, case-sensitive. -/
def jsIncludes (a b : String) : Bool :=
  decide ( List.IsInfix b.data a.data)

/-- JS `String.prototype.trim` (whitespace at both ends removed), computed
structurally on the character list so that proofs can evaluate it. -/
def jsTrim (s : String) : String :=
  String.mk (((s.data.dropWhile Char.isWhitespace).reverse.dropWhile
    Char.isWhitespace).reverse)

/-- Lower-case one character (ASCII-adequate model of JS `toLowerCase`). -/
def asciiToLower (c : Char) : Char :=
  if 'A' ≤ c ∧ c ≤ 'Z' then Char.ofNat (c.toNat + 32) else c

/-- JS `String.prototype.toLowerCase` (ASCII-adequate model). -/
def jsToLower (s : String) : String := String.mk (s.data.map asciiToLower)

/-- JS `s.substring(0, n)`: the first `n` characters of `s`. -/
def jsSubstring0 (s : String) (n : Nat) : String :=
  String.mk (s.data.take n)

/-! ## Relevance Grader (`documentGrader` in rag-chain.ts)

The per-chunk LLM judgment is an oracle `judge : String → String → GradeOutcome`
taking the question and the truncated chunk text; `GradeOutcome.err` models the
judge call throwing. A document chunk is modelled by its `pageContent` string. -/

/-- Outcome of one LLM grading call: a returned string, or a thrown error. -/
inductive GradeOutcome where
  | ok (response : String)
  | err
deriving DecidableEq, Repr

/-- The loop body of `documentGrader`: a chunk is pushed onto `relevantDocs`
when the judgment string (lowercased) contains `"yes"`, or when the judge call
throws (`catch` branch includes the chunk). -/
def gradeKeep (o : GradeOutcome) : Bool :=
  match o with
  | .ok response => jsIncludes (jsToLower response) "yes"
  | .err => true

/-- The grading loop of `documentGrader`: each chunk is judged on its first
1000 characters (`doc.pageContent.substring(0, 1000)`), and kept according to
`gradeKeep`. -/
def documentGraderLoop (judge : String → String → GradeOutcome)
    (question : String) (docs : List String) : List String :=
  docs.filter (fun d => gradeKeep (judge question (jsSubstring0 d 1000)))

/-- `documentGrader` (rag-chain.ts): run the grading loop, then apply the
fallback `if (relevantDocs.length === 0 && docs.length > 0)` which keeps
`docs.slice(0, Math.min(3, docs.length))`. -/
def documentGrader (judge : String → String → GradeOutcome)
    (question : String) (docs : List String) : List String :=
  let relevantDocs := documentGraderLoop judge question docs
  if relevantDocs.length = 0 ∧ docs.length > 0 then
    docs.take (min 3 docs.length)
  else
    relevantDocs

/-! ## Pipeline state (`GraphState` Annotation in rag-chain.ts)

Channels relevant to the verified claims; the `model` and `vectorStore`
channels carry opaque handles and are omitted.  The `generatedAnswer`
channel defaults to `""` and its reducer is `(x, y) => y || x`;
the `documents` channel defaults to `[]` with reducer `(x, y) => y ?? x`. -/

structure GraphState where
  question : String
  urls : List String
  generatedAnswer : String
  documents : List String
  conversationHistory : List (String × String)
deriving DecidableEq, Repr

/-- The value a LangGraph node writes to the `generatedAnswer` channel is
combined with the old value by the reducer `(x, y) => y || x`:
the new value wins unless it is falsy (the empty string). -/
def answerReducer (old new : String) : String :=
  if new = "" then old else new

/-- What `gradeGeneratedAnswer` returns: a JS object that may carry a write
to the `generatedAnswer` channel, or a write under the stray key
`"gradeGeneratedAnswer"` (which is not a channel of the state schema).
`calledJudge` records whether the grading LLM call was issued. -/
structure AnswerGraderOutput where
  generatedAnswer : Option String
  strayKey : Option (String × String)
  calledJudge : Bool
deriving DecidableEq, Repr

/-- The fixed message of the empty-answer branch of `gradeGeneratedAnswer`. -/
def noAnswerMessage : String :=
  "I couldn't find a relevant answer to your question. Can I assist you with anything else?"

/-- The qualifying note appended on an explicit negative judgment. -/
def incompleteNote : String :=
  " (Note: This information may be incomplete based on available documents.)"

/-- `gradeGeneratedAnswer` (rag-chain.ts), with the grading LLM call as the
oracle `judge`.  Mirrors the source:
* `!state.generatedAnswer || state.generatedAnswer.trim() === ""` returns
  `{gradeGeneratedAnswer: noAnswerMessage}` — note the key is the stray
  `gradeGeneratedAnswer`, not the `generatedAnswer` channel;
* a judgment that lowercased-and-trimmed equals `"no"` returns
  `{...state, generatedAnswer: state.generatedAnswer + incompleteNote}`;
* any other judgment, and a thrown judge error, return `state` unchanged
  (whose `generatedAnswer` field re-writes the same value). -/
def gradeGeneratedAnswer (state : GraphState) (judge : GradeOutcome) :
    AnswerGraderOutput :=
  if jsTrim state.generatedAnswer = "" then
    { generatedAnswer := none
      strayKey := some ("gradeGeneratedAnswer", noAnswerMessage)
      calledJudge := false }
  else
    match judge with
    | .ok result =>
      if jsTrim (jsToLower result) = "no" then
        { generatedAnswer := some (state.generatedAnswer ++ incompleteNote)
          strayKey := none
          calledJudge := true }
      else
        { generatedAnswer := some state.generatedAnswer
          strayKey := none
          calledJudge := true }
    | .err =>
        { generatedAnswer := some state.generatedAnswer
          strayKey := none
          calledJudge := true }

/-- Apply a `gradeGeneratedAnswer` update to the state: the write to the
`generatedAnswer` channel goes through `answerReducer`; a write under a key
that is not a channel of the schema updates nothing. -/
def applyAnswerUpdate (state : GraphState) (upd : AnswerGraderOutput) :
    GraphState :=
  match upd.generatedAnswer with
  | some y => { state with generatedAnswer := answerReducer state.generatedAnswer y }
  | none => state

/-! ## Pipeline Controller (the compiled `graph` in rag-chain.ts)

Edges: `START → retrieve_documents → create_model → grade_documents`,
then the conditional edge on `hasRelevantDocs` (`"yes" → generate_answer`,
`"no" → END`), then `generate_answer → grade_generated_answer → END`.
Retrieval and the two LLM calls are oracles:
* `retrieved` — the chunk list the vector-store retriever returns;
* `docJudge` — the per-chunk relevance judgment;
* `gen` — the answer-generation completion (a function of the question,
  the conversation history and the graded chunks);
* `ansJudge` — the answer-grading judgment. -/

/-- `hasRelevantDocs` (rag-chain.ts): `"no"` when `state.documents ?? []`
is empty, `"yes"` otherwise. -/
def hasRelevantDocs (state : GraphState) : String :=
  if state.documents.length = 0 then "no" else "yes"

/-- One run of the compiled graph.  Returns the final state together with a
flag recording whether the `generate_answer` node was invoked. -/
def runPipeline (question : String) (urls : List String)
    (conversationHistory : List (String × String))
    (retrieved : List String)
    (docJudge : String → String → GradeOutcome)
    (gen : String → List (String × String) → List String → String)
    (ansJudge : GradeOutcome) : GraphState × Bool :=
  let s1 : GraphState :=
    { question := question, urls := urls, generatedAnswer := ""
      documents := retrieved, conversationHistory := conversationHistory }
  let s2 : GraphState :=
    { s1 with documents := documentGrader docJudge question s1.documents }
  if hasRelevantDocs s2 = "no" then
    (s2, false)
  else
    let answer := gen question conversationHistory s2.documents
    let s3 : GraphState :=
      { s2 with generatedAnswer := answerReducer s2.generatedAnswer answer }
    let s4 := applyAnswerUpdate s3 (gradeGeneratedAnswer s3 ansJudge)
    (s4, true)

/-! ## Request handlers (server.ts)

Request bodies are modelled with `Option` for fields that may be missing or
of the wrong type (`!urls || !Array.isArray(urls)` ⇒ `none`). -/

/-- JS `s.startsWith(p)`. -/
def jsStartsWith (s p : String) : Bool :=
  decide ( List.IsPrefix p.data s.data)

/-- The `greetings` array of the `/api/chat` handler. -/
def greetings : List String :=
  ["hi", "hello", "hey", "greetings", "good morning", "good afternoon",
   "good evening"]

/-- The `greetingResponses` array of the `/api/chat` handler. -/
def greetingResponses : List String :=
  ["Hello! I'm here to help you with questions about the documents. What would you like to know?",
   "Hi! How can I assist you today? Feel free to ask me anything about the documents.",
   "Hello! I can help answer questions based on the documents you've provided. What would you like to know?",
   "Hi there! I'm ready to help. What questions do you have about the documents?"]

/-- `isGreeting` in the `/api/chat` handler: exact match, match followed by a
space, or match followed by `"!"`. -/
def isGreeting (normalizedMessage : String) : Bool :=
  greetings.any fun greeting =>
    normalizedMessage = greeting
      ∨ jsStartsWith normalizedMessage (greeting ++ " ")
      ∨ normalizedMessage = greeting ++ "!"

/-- The `simpleResponses` mapping of the `/api/chat` handler. -/
def simpleResponses : List (String × String) :=
  [("how are you", "I'm doing well, thank you! I'm here to help you with questions about the documents. What would you like to know?"),
   ("how are you doing", "I'm doing great! Ready to help you with any questions about the documents. What can I assist you with?"),
   ("thanks", "You're welcome! Is there anything else you'd like to know?"),
   ("thank you", "You're welcome! Feel free to ask if you have more questions."),
   ("bye", "Goodbye! Feel free to come back if you have more questions."),
   ("goodbye", "Goodbye! Have a great day!")]

/-- JS object-key lookup `simpleResponses[normalizedMessage]`. -/
def simpleResponseFor (normalizedMessage : String) : Option String :=
  (simpleResponses.find? fun p => p.1 = normalizedMessage).map (·.2)

/-- Where the `/api/chat` handler's synchronous prefix ends up, before any
cache, retrieval or LLM work: a 400 validation rejection, an immediate 200
canned response (conversational shortcut), or falling through to the
pipeline (cache-key computation, vector store, graph). -/
inductive ChatPhase1 where
  | badRequest (error : String)
  | canned (message : String) (documents : List String)
  | pipeline (message : String)
deriving DecidableEq, Repr

/-- The HTTP status an outcome of the synchronous prefix carries
(`none` when the request proceeds to the pipeline). -/
def ChatPhase1.status : ChatPhase1 → Option Nat
  | .badRequest _ => some 400
  | .canned _ _ => some 200
  | .pipeline _ => none

/-- The documents list of an immediate canned response. -/
def ChatPhase1.cannedDocs : ChatPhase1 → Option (List String)
  | .canned _ docs => some docs
  | _ => none

/-- Validation and conversational shortcut of the `/api/chat` handler, in
source order: empty/missing urls → 400; empty/missing message → 400;
more than 3 urls → 400; greeting → canned response chosen by
`Math.floor(Math.random() * greetingResponses.length)` (the random draw is
the oracle `pick`, reduced modulo the array length) with empty documents;
`simpleResponses` phrase → canned response with empty documents; otherwise
the handler proceeds to the pipeline. -/
def chatHandlerPhase1 (urls : Option (List String)) (message : Option String)
    (pick : Nat) : ChatPhase1 :=
  match urls with
  | none => .badRequest "Please provide at least one URL"
  | some us =>
    if us.length = 0 then
      .badRequest "Please provide at least one URL"
    else
      match message with
      | none => .badRequest "Please provide a message"
      | some m =>
        if jsTrim m = "" then
          .badRequest "Please provide a message"
        else if us.length > 3 then
          .badRequest "Too many URLs. Please provide a maximum of 3 URLs at a time."
        else
          let normalizedMessage := jsToLower (jsTrim m)
          if isGreeting normalizedMessage then
            .canned (greetingResponses.getD (pick % greetingResponses.length) "") []
          else
            match simpleResponseFor normalizedMessage with
            | some r => .canned r []
            | none => .pipeline m

/-- Outcome of the validation prefix of the `/api/query` handler. -/
inductive QueryOutcome where
  | badRequest (error : String)
  | pipeline (urls : List String) (question : String)
deriving DecidableEq, Repr

/-- Validation of the `/api/query` handler (server.ts): missing/empty urls →
400, missing/blank question → 400, everything else proceeds to
`getOrCreateVectorStore` and `graph.invoke`.  The handler has no check on
`urls.length > 3`. -/
def queryHandlerValidate (urls : Option (List String))
    (question : Option String) : QueryOutcome :=
  match urls with
  | none => .badRequest "Please provide at least one URL"
  | some us =>
    if us.length = 0 then
      .badRequest "Please provide at least one URL"
    else
      match question with
      | none => .badRequest "Please provide a question"
      | some q =>
        if jsTrim q = "" then
          .badRequest "Please provide a question"
        else
          .pipeline us q

/-- The HTTP status of a `/api/query` validation outcome (`none` when the
request proceeds to the pipeline). -/
def QueryOutcome.status : QueryOutcome → Option Nat
  | .badRequest _ => some 400
  | .pipeline _ _ => none

/-- Validation of the `/api/sample-questions` handler: `some 400` when the
request is rejected, `none` when it proceeds. -/
def sampleQuestionsValidate (urls : Option (List String)) : Option Nat :=
  match urls with
  | none => some 400
  | some us =>
    if us.length = 0 then some 400
    else if us.length > 3 then some 400
    else none

/-! ## Error classification in the `/api/chat` catch block (C9) -/

/-- The message of the error rejected by `createTimeoutPromise` — the same
promise factory serves both the index-build race and the graph race. -/
def timeoutErrorMessage : String :=
  "Request timeout: The operation took too long. This usually happens on the first request when building the vector store. Please wait a bit longer or try again."

/-- The `catch` block of `/api/chat`: `error.message.includes(\x22timeout\x22)`
selects 408, anything else 500. -/
def chatCatchStatus (errorMessage : String) : Nat :=
  if jsIncludes errorMessage "timeout" then 408 else 500

/-! ## Cache-key computation and its frame effect (C10)

`urls.sort()` sorts the array in place with the default comparator
(string comparison) and returns the same array; the mutation is modelled by
explicit state passing: `urlsAfter` is what the caller's `urls` variable
holds after the key computation. -/

/-- Lexicographic comparison of character lists: the default JS string
ordering (code-unit comparison; identical on the code points that appear in
URLs), computed structurally so proofs can evaluate it. -/
def charListLe : List Char → List Char → Bool
  | [], _ => true
  | _ :: _, [] => false
  | a :: as, b :: bs =>
    if a < b then true
    else if b < a then false
    else charListLe as bs

/-- `a <= b` in the default-comparator sense of `Array.prototype.sort`. -/
def jsStringLe (a b : String) : Prop := charListLe a.data b.data = true

instance : DecidableRel jsStringLe := fun a b =>
  inferInstanceAs (Decidable (charListLe a.data b.data = true))

/-- JS `Array.prototype.sort()` on strings: a stable sort by the default
string ordering. -/
def jsSortStrings (xs : List String) : List String :=
  List.insertionSort jsStringLe xs

/-- Result of `const cacheKey = urls.sort().join("|")`: the key, and the
contents of the caller's array afterwards. -/
structure KeyComputation where
  cacheKey : String
  urlsAfter : List String
deriving DecidableEq, Repr

/-- `urls.sort().join("|")` as in `getOrCreateVectorStore` and in the
`/api/chat` handler. -/
def computeCacheKey (urls : List String) : KeyComputation :=
  let sorted := jsSortStrings urls
  { cacheKey := String.intercalate "|" sorted, urlsAfter := sorted }

/-- The URL list the `/api/chat` handler passes downstream (to
`getOrCreateVectorStore` and into the pipeline state) after its cache-key
computation at `const cacheKey = urls.sort().join("|")`. -/
def chatDownstreamUrls (clientUrls : List String) : List String :=
  (computeCacheKey clientUrls).urlsAfter

/-- The array `buildVectorStore` receives on a cache miss: the handler's
(already sorted) array after `getOrCreateVectorStore` runs its own
`urls.sort().join("|")` on it. -/
def buildVectorStoreArg (clientUrls : List String) : List String :=
  (computeCacheKey (chatDownstreamUrls clientUrls)).urlsAfter

/-! ## Index Cache under concurrency (C1)

`getOrCreateVectorStore` runs on Node's single-threaded event loop: each
maximal synchronous segment of the function is one atomic step, and control
can move to another request only at the single `await buildVectorStore(urls)`
suspension point.  A call therefore consists of two atomic steps:

* step 1 (function entry up to the `await`): compute the key; if
  `vectorStoreCache.has(cacheKey)` return the cached store, otherwise start a
  `buildVectorStore` run and suspend;
* step 2 (after the build resolves): `vectorStoreCache.set(cacheKey, ...)`
  and return the freshly built store.

Distinct `buildVectorStore` runs produce distinct `MemoryVectorStore`
objects; they are identified by the build counter's value when the run
starts.  A schedule is the order in which the event loop resumes the
pending calls; `runSchedule` executes it. -/

/-- Where one `getOrCreateVectorStore` call stands. -/
inductive TaskPhase where
  | start
  | awaitingBuild (buildId : Nat)
  | done (index : Nat)
deriving DecidableEq, Repr

/-- The module state plus the pending calls: the `vectorStoreCache` map, the
number of `buildVectorStore` runs started so far, and each call's requested
key and phase. -/
structure CacheSystem where
  cache : List (String × Nat)
  buildsStarted : Nat
  tasks : List (String × TaskPhase)
deriving DecidableEq, Repr

/-- `vectorStoreCache.get(cacheKey)` / `has(cacheKey)`. -/
def cacheLookup (cache : List (String × Nat)) (key : String) : Option Nat :=
  (cache.find? fun p => p.1 = key).map (·.2)

/-- `vectorStoreCache.set(cacheKey, v)`: overwrite or append. -/
def cacheSet (cache : List (String × Nat)) (key : String) (v : Nat) :
    List (String × Nat) :=
  match cache with
  | [] => [(key, v)]
  | (k, w) :: rest =>
    if k = key then (k, v) :: rest else (k, w) :: cacheSet rest key v

/-- Run the next atomic step of call `i` (a no-op when `i` is out of range
or the call has returned). -/
def stepTask (sys : CacheSystem) (i : Nat) : CacheSystem :=
  match sys.tasks[i]? with
  | none => sys
  | some (key, phase) =>
    match phase with
    | .start =>
      match cacheLookup sys.cache key with
      | some idx =>
        { sys with tasks := sys.tasks.set i (key, .done idx) }
      | none =>
        { sys with
            buildsStarted := sys.buildsStarted + 1
            tasks := sys.tasks.set i (key, .awaitingBuild sys.buildsStarted) }
    | .awaitingBuild b =>
      { sys with
          cache := cacheSet sys.cache key b
          tasks := sys.tasks.set i (key, .done b) }
    | .done _ => sys

/-- Execute a schedule (a sequence of task resumptions). -/
def runSchedule (sys : CacheSystem) (schedule : List Nat) : CacheSystem :=
  schedule.foldl stepTask sys

/-- `n` concurrent `getOrCreateVectorStore` calls for the same key, empty
cache. -/
def initCalls (key : String) (n : Nat) : CacheSystem :=
  { cache := [], buildsStarted := 0
    tasks := List.replicate n (key, TaskPhase.start) }

/-- The index call `i` returned, once it is done. -/
def taskResult (sys : CacheSystem) (i : Nat) : Option Nat :=
  match sys.tasks[i]? with
  | some (_, .done idx) => some idx
  | _ => none

/-! ## Helper lemmas -/

theorem charListLe_total : ∀ as bs : List Char,
    charListLe as bs = true ∨ charListLe bs as = true
  | [], _ => Or.inl rfl
  | _ :: _, [] => Or.inr rfl
  | a :: as, b :: bs => by
    rcases lt_trichotomy a b with h | h | h
    · exact Or.inl (by simp [charListLe, h])
    · subst h
      rcases charListLe_total as bs with ih | ih
      · exact Or.inl (by simp [charListLe, ih, lt_irrefl])
      · exact Or.inr (by simp [charListLe, ih, lt_irrefl])
    · exact Or.inr (by simp [charListLe, h])

theorem charListLe_trans : ∀ as bs cs : List Char,
    charListLe as bs = true → charListLe bs cs = true →
    charListLe as cs = true
  | [], _, _ => by intro _ _; rfl
  | _ :: _, [], _ => by intro h _; simp [charListLe] at h
  | _ :: _, _ :: _, [] => by intro _ h; simp [charListLe] at h
  | a :: as, b :: bs, c :: cs => by
    intro h1 h2
    rcases lt_trichotomy a b with hab | hab | hab
    · rcases lt_trichotomy b c with hbc | hbc | hbc
      · simp [charListLe, lt_trans hab hbc]
      · subst hbc; simp [charListLe, hab]
      · simp [charListLe, hbc, asymm hbc] at h2
    · subst hab
      rcases lt_trichotomy a c with hac | hac | hac
      · simp [charListLe, hac]
      · subst hac
        simp only [charListLe, lt_irrefl, if_false] at h1 h2 ⊢
        exact charListLe_trans as bs cs h1 h2
      · simp [charListLe, hac, asymm hac] at h2
    · simp [charListLe, hab, asymm hab] at h1

instance : IsTotal String jsStringLe :=
  ⟨fun a b => charListLe_total a.data b.data⟩

instance : IsTrans String jsStringLe :=
  ⟨fun a b c => charListLe_trans a.data b.data c.data⟩

theorem jsSortStrings_idem (xs : List String) :
    jsSortStrings (jsSortStrings xs) = jsSortStrings xs :=
  List.Sorted.insertionSort_eq (List.sorted_insertionSort jsStringLe xs)

theorem documentGrader_eq_cases (judge : String → String → GradeOutcome)
    (question : String) (docs : List String) :
    documentGrader judge question docs =
      if documentGraderLoop judge question docs = [] ∧ docs ≠ [] then
        docs.take (min 3 docs.length)
      else documentGraderLoop judge question docs := by
  simp only [documentGrader, List.length_eq_zero, gt_iff_lt, List.length_pos]

/-- A concrete pipeline state shared by several concrete instantiations. -/
def s0 : GraphState :=
  { question := "q", urls := ["u"], generatedAnswer := ""
    documents := ["d"], conversationHistory := [] }

/-! ## Claim theorems -/

/-- Claim C1, counterexample. Two concurrent `getOrCreateVectorStore` calls
for the same key `"a"`, each resumed by the event loop after the other's
cache check (schedule 0, 1, 0, 1 — both calls pass the
`vectorStoreCache.has` check before either build resolves), start TWO
`buildVectorStore` runs, and the two callers receive distinct indexes
(call 0 gets build 0, call 1 gets build 1).  This refutes the claimed
at-most-one-build / same-index guarantee. -/
theorem interleaved_calls_start_two_builds :
    (runSchedule (initCalls "a" 2) [0, 1, 0, 1]).buildsStarted = 2
    ∧ taskResult (runSchedule (initCalls "a" 2) [0, 1, 0, 1]) 0 = some 0
    ∧ taskResult (runSchedule (initCalls "a" 2) [0, 1, 0, 1]) 1 = some 1
    ∧ (0 : Nat) ≠ 1 := by
  decide

/-- Claim C1, amended. `getOrCreateVectorStore` deduplicates builds only
when calls for a key do not interleave: if one call runs to completion
before the other starts (schedule 0, 0, 1, 1), exactly one
`buildVectorStore` run is started and both callers receive the index of
that single build. -/
theorem sequential_calls_single_build (key : String) :
    (runSchedule (initCalls key 2) [0, 0, 1, 1]).buildsStarted = 1
    ∧ taskResult (runSchedule (initCalls key 2) [0, 0, 1, 1]) 0 = some 0
    ∧ taskResult (runSchedule (initCalls key 2) [0, 0, 1, 1]) 1 = some 0 := by
  simp [runSchedule, initCalls, stepTask, cacheLookup, cacheSet, taskResult,
    List.foldl, List.replicate, List.set, List.find?]

/-- Claim C2, counterexample. A judgment of `"maybe"` for chunk `"d2"` is
not an explicit negative judgment (it is neither `"no"` nor contains a
negative), yet `documentGrader` excludes `"d2"` from the filtered result:
the loop keeps a chunk only when the judgment contains `"yes"`. -/
theorem nonnegative_judgment_excludes_chunk :
    documentGrader
        (fun _ d => if d = "d2" then GradeOutcome.ok "maybe" else GradeOutcome.ok "yes")
        "q" ["d1", "d2"] = ["d1"]
    ∧ "d2" ∉ documentGrader
        (fun _ d => if d = "d2" then GradeOutcome.ok "maybe" else GradeOutcome.ok "yes")
        "q" ["d1", "d2"]
    ∧ jsTrim (jsToLower "maybe") ≠ "no" := by
  decide

/-- Claim C2, amended. `documentGrader` excludes a chunk of its input from
its result only when the judge call succeeded and its response does not
contain `"yes"` (case-insensitively); in particular a judge failure always
includes the chunk, but so-called lenient inclusion does not extend to
successful non-affirmative responses. -/
theorem exclusion_only_without_yes_or_failure
    (judge : String → String → GradeOutcome) (question : String)
    (docs : List String) (d : String)
    (hd : d ∈ docs) (hout : d ∉ documentGrader judge question docs) :
    ∃ r, judge question (jsSubstring0 d 1000) = .ok r
      ∧ jsIncludes (jsToLower r) "yes" = false := by
  have hloop : d ∉ documentGraderLoop judge question docs := by
    intro hmem
    apply hout
    rw [documentGrader_eq_cases]
    split
    · next hcond => exact absurd hcond.1 (by rintro h; simp [h] at hmem)
    · exact hmem
  have hkeep : gradeKeep (judge question (jsSubstring0 d 1000)) = false := by
    by_contra hk
    exact hloop (List.mem_filter.mpr ⟨hd, by simpa using hk⟩)
  cases hj : judge question (jsSubstring0 d 1000) with
  | ok r => exact ⟨r, rfl, by simpa [gradeKeep, hj] using hkeep⟩
  | err => simp [gradeKeep, hj] at hkeep

/-- Claim C2, witness for the amended theorem: with four chunks all judged
`"maybe"`, the fallback keeps the first three and excludes `"d"`; the
amended theorem then yields the successful non-affirmative judgment. -/
theorem exclusion_only_without_yes_or_failure_witness :
    "d" ∈ (["a", "b", "c", "d"] : List String)
    ∧ "d" ∉ documentGrader (fun _ _ => GradeOutcome.ok "maybe") "q" ["a", "b", "c", "d"]
    ∧ ∃ r, (fun (_ _ : String) => GradeOutcome.ok "maybe") "q" (jsSubstring0 "d" 1000) = .ok r
        ∧ jsIncludes (jsToLower r) "yes" = false :=
  ⟨by decide, by decide,
   exclusion_only_without_yes_or_failure (fun _ _ => GradeOutcome.ok "maybe") "q"
     ["a", "b", "c", "d"] "d" (by decide) (by decide)⟩

/-- Claim C3, counterexample. A `/api/query` request with four URLs and a
valid question is not rejected: the handler's validation has no
`urls.length > 3` check, so the request proceeds to the pipeline instead of
yielding HTTP 400. -/
theorem query_four_urls_not_rejected :
    queryHandlerValidate (some ["a", "b", "c", "d"]) (some "q")
      = .pipeline ["a", "b", "c", "d"] "q"
    ∧ (queryHandlerValidate (some ["a", "b", "c", "d"]) (some "q")).status ≠ some 400 := by
  decide

/-- Claim C3, amended. The `/api/query` handler does not enforce the 3-URL
cap: for every request with more than 3 URLs and a non-blank question, the
request passes validation and proceeds to the pipeline (400 arises only for
missing/empty urls or a missing/blank question). -/
theorem query_no_url_cap (us : List String) (q : String)
    (h3 : 3 < us.length) (hq : jsTrim q ≠ "") :
    queryHandlerValidate (some us) (some q) = .pipeline us q := by
  simp only [queryHandlerValidate]
  rw [if_neg (by omega), if_neg hq]

/-- Claim C3, witness for the amended theorem at four URLs. -/
theorem query_no_url_cap_witness :
    3 < (["a", "b", "c", "d"] : List String).length
    ∧ jsTrim "q" ≠ ""
    ∧ queryHandlerValidate (some ["a", "b", "c", "d"]) (some "q")
        = .pipeline ["a", "b", "c", "d"] "q" :=
  ⟨by decide, by decide, query_no_url_cap ["a", "b", "c", "d"] "q" (by decide) (by decide)⟩

/-- Claim C4, evaluated at the failing input (a state whose
`generatedAnswer` is empty).  The empty-answer branch of
`gradeGeneratedAnswer` does skip the LLM grading call, but it returns the
fixed message under the stray key `"gradeGeneratedAnswer"` — which is not a
channel of the state schema — and writes nothing to the `generatedAnswer`
channel, so the resulting state's `generatedAnswer` stays empty instead of
becoming the fixed message the claim (and the spec) describe. -/
theorem empty_answer_branch_misses_channel :
    (∀ j, gradeGeneratedAnswer s0 j =
      { generatedAnswer := none
        strayKey := some ("gradeGeneratedAnswer", noAnswerMessage)
        calledJudge := false })
    ∧ (applyAnswerUpdate s0 (gradeGeneratedAnswer s0 (.ok "yes"))).generatedAnswer = ""
    ∧ noAnswerMessage ≠ "" := by
  refine ⟨fun j => ?_, by decide, by decide⟩
  cases j <;> rfl

/-- Claim C5. For a state whose `generatedAnswer` is non-blank,
`gradeGeneratedAnswer` never discards the answer: on an explicit negative
judgment (lowercased and trimmed exactly `"no"`) it writes the original
answer with the fixed qualifying note appended, and on any other judgment —
or a judge failure — it writes the original answer unchanged. -/
theorem answer_grader_never_discards (s : GraphState) (j : GradeOutcome)
    (h : jsTrim s.generatedAnswer ≠ "") :
    ((∃ r, j = .ok r ∧ jsTrim (jsToLower r) = "no") →
      (gradeGeneratedAnswer s j).generatedAnswer
        = some (s.generatedAnswer ++ incompleteNote))
    ∧ ((∀ r, j = .ok r → jsTrim (jsToLower r) ≠ "no") →
      (gradeGeneratedAnswer s j).generatedAnswer = some s.generatedAnswer) := by
  constructor
  · rintro ⟨r, rfl, hr⟩
    simp [gradeGeneratedAnswer, h, hr]
  · intro hall
    cases j with
    | ok r => simp [gradeGeneratedAnswer, h, hall r rfl]
    | err => simp [gradeGeneratedAnswer, h]

/-- Claim C5, witness: a `"No "` judgment appends the note to `"ans"`, and a
judge failure leaves `"ans"` unchanged. -/
theorem answer_grader_never_discards_witness :
    jsTrim "ans" ≠ ""
    ∧ (gradeGeneratedAnswer { s0 with generatedAnswer := "ans" } (.ok "No ")).generatedAnswer
        = some ("ans" ++ incompleteNote)
    ∧ (gradeGeneratedAnswer { s0 with generatedAnswer := "ans" } .err).generatedAnswer
        = some "ans" :=
  ⟨by decide,
   (answer_grader_never_discards { s0 with generatedAnswer := "ans" } (.ok "No ")
     (by decide)).1 ⟨"No ", rfl, by decide⟩,
   (answer_grader_never_discards { s0 with generatedAnswer := "ans" } .err
     (by decide)).2 (by rintro r ⟨⟩)⟩

/-- Claim C6. For every non-empty input chunk list, `documentGrader`
returns a non-empty result, and when zero chunks pass the grading loop the
result is exactly the first `min(3, docs.length)` chunks of the input, in
retrieval-rank order. -/
theorem relevance_grader_fallback_nonempty
    (judge : String → String → GradeOutcome) (question : String)
    (docs : List String) (h : docs ≠ []) :
    documentGrader judge question docs ≠ []
    ∧ (documentGraderLoop judge question docs = [] →
        documentGrader judge question docs = docs.take (min 3 docs.length)) := by
  have hlen : 0 < docs.length := List.length_pos.mpr h
  rw [documentGrader_eq_cases]
  by_cases hc : documentGraderLoop judge question docs = []
  · rw [if_pos ⟨hc, h⟩]
    refine ⟨fun htake => ?_, fun _ => rfl⟩
    rcases List.take_eq_nil_iff.mp htake with h0 | h0
    · omega
    · exact h h0
  · rw [if_neg (by rintro ⟨h1, _⟩; exact hc h1)]
    exact ⟨hc, fun he => absurd he hc⟩

/-- Claim C6, witness: a single chunk judged `"nope"` fails grading but the
fallback keeps it, so the result is non-empty. -/
theorem relevance_grader_fallback_witness :
    (["a"] : List String) ≠ []
    ∧ documentGrader (fun _ _ => GradeOutcome.ok "nope") "q" ["a"] ≠ [] :=
  ⟨by decide,
   (relevance_grader_fallback_nonempty (fun _ _ => GradeOutcome.ok "nope") "q" ["a"]
     (by decide)).1⟩

/-- Claim C7. The pipeline invokes the answer generator exactly when the
post-grading documents list is non-empty; when that list is empty the graph
takes the `"no"` edge to END, and the final state carries an empty
`generatedAnswer` (the channel default) and an empty documents list. -/
theorem generator_only_on_nonempty_docs (question : String) (urls : List String)
    (hist : List (String × String)) (retrieved : List String)
    (docJudge : String → String → GradeOutcome)
    (gen : String → List (String × String) → List String → String)
    (ansJudge : GradeOutcome) :
    ((runPipeline question urls hist retrieved docJudge gen ansJudge).2 = true
      ↔ documentGrader docJudge question retrieved ≠ [])
    ∧ (documentGrader docJudge question retrieved = [] →
        (runPipeline question urls hist retrieved docJudge gen ansJudge).1.generatedAnswer = ""
        ∧ (runPipeline question urls hist retrieved docJudge gen ansJudge).1.documents = []) := by
  by_cases hg : documentGrader docJudge question retrieved = []
  · constructor
    · simp [runPipeline, hasRelevantDocs, hg]
    · intro _
      constructor <;> simp [runPipeline, hasRelevantDocs, hg]
  · constructor
    · simp only [runPipeline, hasRelevantDocs]
      rw [if_neg (by simp [List.length_eq_zero, hg])]
      simp [hg]
    · intro he; exact absurd he hg

/-- Claim C7, witness: with an empty retrieval result the generator is not
invoked and the final documents list is empty. -/
theorem generator_only_on_nonempty_docs_witness :
    (runPipeline "q" ["u"] [] [] (fun _ _ => GradeOutcome.err)
      (fun _ _ _ => "ans") GradeOutcome.err).1.documents = []
    ∧ (runPipeline "q" ["u"] [] [] (fun _ _ => GradeOutcome.err)
      (fun _ _ _ => "ans") GradeOutcome.err).2 = false := by
  have h := generator_only_on_nonempty_docs "q" ["u"] [] []
    (fun _ _ => GradeOutcome.err) (fun _ _ _ => "ans") GradeOutcome.err
  have hg : documentGrader (fun _ _ => GradeOutcome.err) "q" ([] : List String) = [] := by
    decide
  refine ⟨(h.2 hg).2, ?_⟩
  cases hb : (runPipeline "q" ["u"] [] [] (fun _ _ => GradeOutcome.err)
      (fun _ _ _ => "ans") GradeOutcome.err).2
  · rfl
  · exact absurd (h.1.mp hb) (by simp [hg])

/-- Claim C8. With a valid URL list, the messages `"hi"`, `"Hello!"` and
`"hey there"` each make the `/api/chat` handler's synchronous prefix answer
immediately with status 200, a canned message and an empty documents list —
the `canned` outcome is produced before the cache-key computation, the
vector store and the graph are ever reached, for every random draw `pick` —
while `"hi-5"` matches no greeting and no simple response and falls through
to the pipeline. -/
theorem greeting_shortcut_behavior : ∀ pick : Nat,
    ((chatHandlerPhase1 (some ["https://example.com/a"]) (some "hi") pick).status = some 200
      ∧ (chatHandlerPhase1 (some ["https://example.com/a"]) (some "hi") pick).cannedDocs
          = some [])
    ∧ ((chatHandlerPhase1 (some ["https://example.com/a"]) (some "Hello!") pick).status
          = some 200
      ∧ (chatHandlerPhase1 (some ["https://example.com/a"]) (some "Hello!") pick).cannedDocs
          = some [])
    ∧ ((chatHandlerPhase1 (some ["https://example.com/a"]) (some "hey there") pick).status
          = some 200
      ∧ (chatHandlerPhase1 (some ["https://example.com/a"]) (some "hey there") pick).cannedDocs
          = some [])
    ∧ chatHandlerPhase1 (some ["https://example.com/a"]) (some "hi-5") pick
        = .pipeline "hi-5" :=
  fun _ => ⟨⟨rfl, rfl⟩, ⟨rfl, rfl⟩, ⟨rfl, rfl⟩, rfl⟩

/-- Claim C9, counterexample. The catch block classifies by the substring
test `error.message.includes("timeout")`, not by the failure's origin: a
build or generation failure whose message happens to contain `"timeout"`
(for example an HTTP client's `"timeout of 10000ms exceeded"`) is surfaced
as 408, not 500, even though it is not either race's timeout rejection. -/
theorem build_error_with_timeout_text_gets_408 :
    chatCatchStatus "timeout of 10000ms exceeded" = 408
    ∧ "timeout of 10000ms exceeded" ≠ timeoutErrorMessage
    ∧ (408 : Nat) ≠ 500 := by
  decide

/-- Claim C9, amended. A timeout of either race is surfaced with 408 (both
races reject with the fixed `createTimeoutPromise` message, which contains
`"timeout"`), and every other failure is surfaced with 500 unless its error
message also contains the substring `"timeout"`, in which case it too is
surfaced with 408. -/
theorem catch_classification :
    chatCatchStatus timeoutErrorMessage = 408
    ∧ ∀ m, jsIncludes m "timeout" = false → chatCatchStatus m = 500 := by
  refine ⟨by decide, fun m hm => ?_⟩
  simp [chatCatchStatus, hm]

/-- Claim C9, witness: a failure message without the substring gets 500. -/
theorem catch_classification_witness :
    jsIncludes "OpenAI rate limit exceeded" "timeout" = false
    ∧ chatCatchStatus "OpenAI rate limit exceeded" = 500 :=
  ⟨by decide, catch_classification.2 "OpenAI rate limit exceeded" (by decide)⟩

/-- Claim C10. Computing the cache key sorts the request's URL array in
place (modelled by explicit state passing through `urlsAfter`): after
`const cacheKey = urls.sort().join("|")` in the `/api/chat` handler, the
array every downstream consumer observes — the pipeline state's `urls` and
the argument `buildVectorStore` receives after `getOrCreateVectorStore`
sorts it again — is the sorted list; on an unsorted client order such as
`["b", "a"]` this differs from the order the client sent. -/
theorem cache_key_sort_frame_effect :
    (∀ clientUrls, chatDownstreamUrls clientUrls = jsSortStrings clientUrls
      ∧ buildVectorStoreArg clientUrls = jsSortStrings clientUrls)
    ∧ chatDownstreamUrls ["b", "a"] = ["a", "b"]
    ∧ (["a", "b"] : List String) ≠ ["b", "a"] := by
  refine ⟨fun clientUrls => ⟨rfl, ?_⟩, by decide, by decide⟩
  show jsSortStrings (jsSortStrings clientUrls) = jsSortStrings clientUrls
  exact jsSortStrings_idem clientUrls

end RagAgent
